import Mathlib

/-!
Shallow embedding of `src/pixelart.py` (the Pixelita pixel-art application).

The embedding models the Python source faithfully:
* `QImage` pixel grids become total functions `Nat → Nat → Rgb`;
* Python's `int(a * b / c)` on the magnitudes used here (pointer coordinates
  times grid sizes, far below 2^53) evaluates exactly, so it is modelled as
  integer division truncating toward zero (`Int.tdiv`);
* `QImage.scaled` with `Qt.TransformationMode.FastTransformation` is Qt's
  nearest-neighbor scaling: output pixel `(i, j)` samples source pixel
  `(i * srcW / dstW, j * srcH / dstH)`;
* `QImage.save` reports failure through its `Bool` return value and raises
  no exception;
* the JSON config file is modelled by a `FileState`: absent, unreadable
  (I/O error on `open`), malformed (JSON parse error), or a parsed JSON
  object restricted to the three theme keys, each optional;
* Python functions that may raise are embedded in `Except PyError`.
-/

/-- An RGB color value (24-bit), the value type of `QColor` pixels. -/
structure Rgb where
  r : Nat
  g : Nat
  b : Nat
deriving DecidableEq, Repr

/-- `Qt.GlobalColor.white` and `QColor("white")`: both denote #ffffff. -/
def Rgb.white : Rgb := ⟨255, 255, 255⟩

/-- The initial brush color `QColor("#ff69b4")` from `PixelArtCanvas.__init__`. -/
def Rgb.hotPink : Rgb := ⟨0xff, 0x69, 0xb4⟩

/-- An in-memory image: the color of every (x, y) position.  Models the
backing `QImage` of the canvas (all queries outside the canvas bounds are
irrelevant to the program; the function is total for simplicity). -/
def Img : Type := Nat → Nat → Rgb

/-- Read one pixel (`QImage.pixelColor`). -/
def getPixel (img : Img) (x y : Nat) : Rgb := img x y

/-- Write one pixel (`QImage.setPixelColor`). -/
def setPixel (img : Img) (x y : Nat) (c : Rgb) : Img :=
  fun i j => if i = x ∧ j = y then c else img i j

/-- `QImage(width, height).fill(white)`: the all-white image. -/
def blankImg : Img := fun _ _ => Rgb.white

/-- State of `PixelArtCanvas` (the fields of the Python object that the
modelled methods read or write; the displayed pixmap is derived data). -/
structure Canvas where
  width_px : Nat
  height_px : Nat
  display_size : Nat
  image : Img
  drawing : Bool
  brush_color : Rgb

/-- `PixelArtCanvas.__init__(width, height, display_size)`. -/
def Canvas.init (width height display_size : Nat) : Canvas :=
  { width_px := width
    height_px := height
    display_size := display_size
    image := blankImg
    drawing := false
    brush_color := Rgb.hotPink }

/-- The coordinate mapping in `paint_pixel` / `reset_pixel`:
`x = int(pos.x() * self.width_px / self.width())`.  Python's `int()` of the
float quotient truncates toward zero; on these magnitudes the float
arithmetic is exact, so this is `Int.tdiv` (T-division). -/
def mapCoord (p : Int) (cells display : Nat) : Int :=
  Int.tdiv (p * cells) display

/-- Both coordinates of the pointer-to-cell mapping (lines 62-63 / 72-73). -/
def mapPointerToCell (px py : Int) (w h W H : Nat) : Int × Int :=
  (mapCoord px w W, mapCoord py h H)

/-- `PixelArtCanvas.paint_pixel(pos)`: maps the pointer position to a cell,
and if the mapped cell lies in `[0,width_px) × [0,height_px)` paints it with
the brush color (then refreshes the display, which leaves the model
untouched); otherwise does nothing.  `W, H` are `self.width()`,
`self.height()` — the widget's display-surface size. -/
def paint_pixel (c : Canvas) (posx posy : Int) (W H : Nat) : Canvas :=
  let x := mapCoord posx c.width_px W
  let y := mapCoord posy c.height_px H
  if 0 ≤ x ∧ x < c.width_px ∧ 0 ≤ y ∧ y < c.height_px then
    { c with image := setPixel c.image x.toNat y.toNat c.brush_color }
  else c

/-- `PixelArtCanvas.reset_pixel(pos)`: same mapping and guard as
`paint_pixel`, but writes `QColor("white")` instead of the brush color. -/
def reset_pixel (c : Canvas) (posx posy : Int) (W H : Nat) : Canvas :=
  let x := mapCoord posx c.width_px W
  let y := mapCoord posy c.height_px H
  if 0 ≤ x ∧ x < c.width_px ∧ 0 ≤ y ∧ y < c.height_px then
    { c with image := setPixel c.image x.toNat y.toNat Rgb.white }
  else c

/-- The guarded cell write shared by `paint_pixel` (line 64-65): given an
already-mapped cell coordinate, set it to `col` when in range, else no-op.
This is the spec's `paint(x, y, color)` operation. -/
def paintCellOp (img : Img) (w h : Nat) (x y : Int) (col : Rgb) : Img :=
  if 0 ≤ x ∧ x < w ∧ 0 ≤ y ∧ y < h then
    setPixel img x.toNat y.toNat col
  else img

/-- The guarded cell write of `reset_pixel` (line 74-75): the spec's
`erase(x, y)`. -/
def eraseCellOp (img : Img) (w h : Nat) (x y : Int) : Img :=
  if 0 ≤ x ∧ x < w ∧ 0 ≤ y ∧ y < h then
    setPixel img x.toNat y.toNat Rgb.white
  else img

/-- `QImage.scaled(dstW, dstH, IgnoreAspectRatio, FastTransformation)`:
Qt nearest-neighbor scaling of a `srcW × srcH` image — output pixel
`(i, j)` takes the color of source pixel `(i*srcW/dstW, j*srcH/dstH)`. -/
def qscaled (img : Img) (srcW srcH dstW dstH : Nat) : Img :=
  fun i j => img (i * srcW / dstW) (j * srcH / dstH)

/-- The scaling step of `PixelArtCanvas.update_display` (lines 83-85): the
internal image scaled up to `display_size × display_size`.  (The grid lines
are then drawn on the resulting pixmap, not on the model image.) -/
def update_display_scaled (c : Canvas) : Img :=
  qscaled c.image c.width_px c.height_px c.display_size c.display_size

/-- The scaling step of `PixelArtCanvas.save_image` (lines 105-107): the
internal image scaled up to 1080 × 1080 with no grid overlay. -/
def save_image_scaled (c : Canvas) : Img :=
  qscaled c.image c.width_px c.height_px 1080 1080

/-- Errors a modelled Python operation may raise. -/
inductive PyError where
  | ioError
  | jsonDecodeError
deriving DecidableEq, Repr

/-- A theme dictionary as it appears in `config.json`: a JSON object
restricted to the three keys the program ever writes or reads, each of
which may be missing in a file written by other means. -/
structure StyleDict where
  window_color : Option String
  button_color : Option String
  font : Option String
deriving DecidableEq, Repr

/-- A style dictionary carries all three theme fields. -/
def StyleDict.fullyPopulated (d : StyleDict) : Prop :=
  d.window_color.isSome ∧ d.button_color.isSome ∧ d.font.isSome

instance (d : StyleDict) : Decidable d.fullyPopulated := by
  unfold StyleDict.fullyPopulated; infer_instance

/-- `PixelArtApp.default_style`:
`{"window_color": "#f3e6ff", "button_color": "#b57edc", "font": "Comic Sans MS"}`. -/
def default_style : StyleDict :=
  { window_color := some "#f3e6ff"
    button_color := some "#b57edc"
    font := some "Comic Sans MS" }

/-- The state of the file at `CONFIG_FILE` ("config.json"): absent,
present but unreadable (`open` raises `IOError`), present with content
`json.load` rejects (`json.JSONDecodeError`), or present with a JSON
object that parses to a `StyleDict`. -/
inductive FileState where
  | absent
  | unreadable
  | malformed
  | json (d : StyleDict)
deriving DecidableEq, Repr

/-- The file system as the theme store sees it: the config file's state
and whether the path is writable at the moment of a write attempt. -/
structure CfgFS where
  writable : Bool
  state : FileState
deriving DecidableEq, Repr

/-- `PixelArtApp.save_config`: `open(CONFIG_FILE, "w")` raises `IOError`
on an unwritable path, otherwise `json.dump` overwrites the file with the
current style dictionary. -/
def save_config (style : StyleDict) (fs : CfgFS) : Except PyError CfgFS :=
  if fs.writable then .ok { fs with state := .json style }
  else .error .ioError

/-- `PixelArtApp.load_config`: if `os.path.exists(CONFIG_FILE)` fails the
test, return `self.default_style.copy()`; otherwise `open` + `json.load`,
which raises `IOError` on an unreadable file and `json.JSONDecodeError` on
malformed content, and returns the parsed dictionary as-is. -/
def load_config (fs : CfgFS) : Except PyError StyleDict :=
  match fs.state with
  | .absent => .ok default_style
  | .unreadable => .error .ioError
  | .malformed => .error .jsonDecodeError
  | .json d => .ok d

/-- The mutable application state the theme methods touch:
`self.current_style` (`self.default_style` is the fixed literal above). -/
structure App where
  current_style : StyleDict
deriving DecidableEq, Repr

/-- `PixelArtApp.reset_theme`: sets `self.current_style` to
`self.default_style.copy()`, re-applies the stylesheet (pure GUI, no model
effect) and then calls `self.save_config()`, writing the file. -/
def reset_theme (a : App) (fs : CfgFS) : Except PyError (App × CfgFS) := do
  let a' : App := { a with current_style := default_style }
  let fs' ← save_config a'.current_style fs
  return (a', fs')

/-- The PNG-export side of the file system: whether the chosen path is
writable, and the PNG last written there (if any). -/
structure PngFS where
  writable : Bool
  content : Option (Img × Nat × Nat)

/-- `QImage.save(filename)`: writes the image and returns `True` on
success; on an unwritable path it returns `False` — it does not raise. -/
def qimageSave (img : Img) (w h : Nat) (fs : PngFS) : Bool × PngFS :=
  if fs.writable then (true, { fs with content := some (img, w, h) })
  else (false, fs)

/-- `PixelArtCanvas.save_image`: asks the file dialog for a name (`none`
models the user cancelling); if a name was chosen, scales the internal
image to 1080 × 1080 with `FastTransformation` and calls `scaled.save`,
whose boolean result the source discards.  Embedded in `Except PyError`
to record which runs raise: none do. -/
def save_image (c : Canvas) (dialogResult : Option String) (fs : PngFS) :
    Except PyError (Canvas × PngFS) :=
  match dialogResult with
  | none => .ok (c, fs)
  | some _ =>
    let scaled := save_image_scaled c
    let r := qimageSave scaled 1080 1080 fs
    .ok (c, r.2)

/-- The red used by the spec's rasterization scenario (#ff0000). -/
def Rgb.red : Rgb := ⟨255, 0, 0⟩

/-- Claim C6 (confirmed): for every in-range cell coordinate and every
color, painting the cell and then reading it back returns that color. -/
theorem paint_then_read (img : Img) (w h x y : Nat) (col : Rgb)
    (hx : x < w) (hy : y < h) :
    getPixel (paintCellOp img w h (x : Int) (y : Int) col) x y = col := by
  unfold paintCellOp
  rw [if_pos ⟨Int.ofNat_nonneg x, by exact_mod_cast hx,
      Int.ofNat_nonneg y, by exact_mod_cast hy⟩]
  unfold getPixel setPixel
  simp

/-- Witness for C6 at a concrete input. -/
theorem paint_then_read_witness :
    getPixel (paintCellOp blankImg 4 4 (0 : Int) (0 : Int) Rgb.hotPink) 0 0
      = Rgb.hotPink :=
  paint_then_read blankImg 4 4 0 0 Rgb.hotPink (by decide) (by decide)

/-- Claim C7 (confirmed): painting any out-of-range cell coordinate is a
silent no-op — every cell of the canvas keeps its old color (and the
operation, a total function, raises nothing). -/
theorem paint_out_of_range_noop (img : Img) (w h : Nat) (x y : Int)
    (col : Rgb) (hout : ¬(0 ≤ x ∧ x < w ∧ 0 ≤ y ∧ y < h)) (i j : Nat) :
    getPixel (paintCellOp img w h x y col) i j = getPixel img i j := by
  unfold paintCellOp
  rw [if_neg hout]

/-- Witness for C7: `paint(5,5,red)` on a 4×4 canvas leaves cell (2,3)
unchanged. -/
theorem paint_out_of_range_noop_witness :
    getPixel (paintCellOp blankImg 4 4 5 5 Rgb.red) 2 3 = getPixel blankImg 2 3 :=
  paint_out_of_range_noop blankImg 4 4 5 5 Rgb.red (by decide) 2 3

/-- Claim C8 (confirmed): erasing is exactly painting white, both for the
cell-level operation (any coordinate, in range or not) and for the full
pointer-level methods: `reset_pixel` produces the same image as
`paint_pixel` run with a white brush. -/
theorem erase_eq_paint_white (img : Img) (w h : Nat) (x y : Int)
    (c : Canvas) (posx posy : Int) (W H : Nat) :
    eraseCellOp img w h x y = paintCellOp img w h x y Rgb.white ∧
    (reset_pixel c posx posy W H).image
      = (paint_pixel { c with brush_color := Rgb.white } posx posy W H).image := by
  constructor
  · rfl
  · unfold reset_pixel paint_pixel
    dsimp only
    by_cases hc : 0 ≤ mapCoord posx c.width_px W ∧
        mapCoord posx c.width_px W < c.width_px ∧
        0 ≤ mapCoord posy c.height_px H ∧
        mapCoord posy c.height_px H < c.height_px
    · rw [if_pos hc, if_pos hc]
    · rw [if_neg hc, if_neg hc]

/-- Claim C2 (confirmed): for pointer positions inside the display surface
the mapping is exact floor division — `int()` truncation coincides with
`floor` on the nonnegative quotients arising here — and the boundary pixel
`px = displayWidth - 1` maps to cell column `width_px - 1` (for a canvas
no finer than its display surface, as in the program, 60 cells on 600
display pixels). -/
theorem mapPointerToCell_floor (px py : Int) (w h W H : Nat)
    (hpx0 : 0 ≤ px) (hpxW : px < (W : Int))
    (hpy0 : 0 ≤ py) (hpyH : py < (H : Int)) :
    mapPointerToCell px py w h W H
      = ((px * w).fdiv W, (py * h).fdiv H) ∧
    (px = (W : Int) - 1 → 0 < w → w ≤ W →
      (mapPointerToCell px py w h W H).1 = (w : Int) - 1) := by
  have hW : (0 : Int) < W := lt_of_le_of_lt hpx0 hpxW
  have hx : mapCoord px w W = (px * w).fdiv W := by
    unfold mapCoord
    rw [Int.tdiv_eq_ediv (by positivity) (by positivity),
      Int.fdiv_eq_ediv _ (by positivity)]
  have hy : mapCoord py h H = (py * h).fdiv H := by
    unfold mapCoord
    rw [Int.tdiv_eq_ediv (by positivity) (by positivity),
      Int.fdiv_eq_ediv _ (by positivity)]
  refine ⟨?_, ?_⟩
  · show (mapCoord px w W, mapCoord py h H) = _
    rw [hx, hy]
  · intro hlast hw hwW
    show mapCoord px w W = (w : Int) - 1
    rw [hx, hlast, Int.fdiv_eq_ediv _ (by positivity)]
    have e : ((W : Int) - 1) * w = ((W : Int) - w) + W * ((w : Int) - 1) := by
      ring
    rw [e, Int.add_mul_ediv_left _ _ (ne_of_gt hW),
      Int.ediv_eq_zero_of_lt (by omega) (by omega)]
    ring

/-- Witness for C2: on the program's 60-cell canvas shown at 600 display
pixels, pointer x = 599 (the last display column) maps to cell column 59. -/
theorem mapPointerToCell_floor_witness :
    mapPointerToCell 599 0 60 60 600 600 = (59, 0) := by
  have hmap := mapPointerToCell_floor 599 0 60 60 600 600
    (by decide) (by decide) (by decide) (by decide)
  rw [hmap.1]
  decide

/-- Claim C10 (confirmed): a pointer position just left of the display
surface (any `px < 0` with `px * width_px > -displayWidth`) is NOT a
no-op: `int()` truncates the negative quotient toward zero, the mapped
cell column is 0, the bounds check (which tests the mapped cell, not the
pointer) passes, and the brush color is written to cell (0, row). -/
theorem negative_pointer_paints_column_zero
    (c : Canvas) (posx posy : Int) (W H : Nat)
    (hw : 0 < c.width_px) (hh : 0 < c.height_px)
    (hx1 : -(W : Int) < posx * c.width_px) (hx2 : posx < 0)
    (hy0 : 0 ≤ posy) (hyH : posy < (H : Int)) :
    mapCoord posx c.width_px W = 0 ∧
    (paint_pixel c posx posy W H).image
      = setPixel c.image 0 (mapCoord posy c.height_px H).toNat c.brush_color := by
  have hH : (0 : Int) < H := lt_of_le_of_lt hy0 hyH
  have hxneg : posx * c.width_px < 0 :=
    mul_neg_of_neg_of_pos hx2 (by exact_mod_cast hw)
  have hx0 : mapCoord posx c.width_px W = 0 := by
    unfold mapCoord
    have h1 : (-(posx * c.width_px)).tdiv W = 0 :=
      Int.tdiv_eq_zero_of_lt (by omega) (by omega)
    have h2 := Int.neg_tdiv (-(posx * (c.width_px : Int))) (W : Int)
    rw [neg_neg] at h2
    rw [h2, h1, neg_zero]
  have hynn : 0 ≤ mapCoord posy c.height_px H := by
    unfold mapCoord
    exact Int.tdiv_nonneg (by positivity) (by positivity)
  have hylt : mapCoord posy c.height_px H < c.height_px := by
    unfold mapCoord
    rw [Int.tdiv_eq_ediv (by positivity) (by positivity)]
    rw [Int.ediv_lt_iff_lt_mul hH]
    calc posy * (c.height_px : Int) < H * c.height_px := by
          exact mul_lt_mul_of_pos_right hyH (by exact_mod_cast hh)
      _ = (c.height_px : Int) * H := by ring
  refine ⟨hx0, ?_⟩
  unfold paint_pixel
  dsimp only
  rw [if_pos ⟨by rw [hx0], by rw [hx0]; exact_mod_cast hw, hynn, hylt⟩]
  rw [hx0]
  rfl

/-- Witness for C10: on the fresh 60×60 canvas shown at 600×600, pointer
position (-1, 0) maps to cell (0, 0) and paints it with the brush. -/
theorem negative_pointer_paints_column_zero_witness :
    mapCoord (-1) (Canvas.init 60 60 600).width_px 600 = 0 ∧
    (paint_pixel (Canvas.init 60 60 600) (-1) 0 600 600).image
      = setPixel (Canvas.init 60 60 600).image 0
          (mapCoord 0 (Canvas.init 60 60 600).height_px 600).toNat
          (Canvas.init 60 60 600).brush_color :=
  negative_pointer_paints_column_zero (Canvas.init 60 60 600) (-1) 0 600 600
    (by decide) (by decide) (by decide) (by decide) (by decide) (by decide)

/-- Claim C5 (confirmed): when the target size is an exact multiple of the
grid size (`T = k * w = l * h`), nearest-neighbor scaling is pure block
replication — every output pixel inside the block of cell (x, y) carries
exactly that cell's color, with no interpolation.  (The scaling reads the
unchanged source image `img`; `qscaled` returns a new image and mutates
nothing.) -/
theorem rasterize_block_replication
    (img : Img) (w h T k l x y i j : Nat)
    (hw : 0 < w) (hh : 0 < h)
    (hTk : T = k * w) (hTl : T = l * h)
    (hi1 : x * k ≤ i) (hi2 : i < (x + 1) * k)
    (hj1 : y * l ≤ j) (hj2 : j < (y + 1) * l) :
    getPixel (qscaled img w h T T) i j = getPixel img x y := by
  have e1 : i * w / T = x := by
    rw [hTk, Nat.mul_div_mul_right _ _ hw, Nat.div_eq_of_lt_le hi1 hi2]
  have e2 : j * h / T = y := by
    rw [hTl, Nat.mul_div_mul_right _ _ hh, Nat.div_eq_of_lt_le hj1 hj2]
  show img (i * w / T) (j * h / T) = img x y
  rw [e1, e2]

/-- Witness for C5: the spec scenario — 4×4 canvas, cell (0,0) painted
red, scaled to 8×8: output pixel (1,0) is red. -/
theorem rasterize_block_replication_witness :
    getPixel (qscaled (paintCellOp blankImg 4 4 0 0 Rgb.red) 4 4 8 8) 1 0
      = Rgb.red := by
  rw [rasterize_block_replication (paintCellOp blankImg 4 4 0 0 Rgb.red)
    4 4 8 2 2 0 0 1 0 (by decide) (by decide) rfl rfl
    (by decide) (by decide) (by decide) (by decide)]
  decide

/-- Counterexample to claim C1 as stated: a malformed config file makes
`load_config` raise `json.JSONDecodeError` (the claim says malformed
content never raises), and a valid JSON file holding only `window_color`
is returned as-is, not topped up to a fully populated record. -/
theorem load_config_claim_counterexample :
    load_config ⟨true, FileState.malformed⟩ = .error PyError.jsonDecodeError ∧
    load_config ⟨true, FileState.json ⟨some "#111111", none, none⟩⟩
      = .ok ⟨some "#111111", none, none⟩ ∧
    ¬ StyleDict.fullyPopulated ⟨some "#111111", none, none⟩ :=
  ⟨rfl, rfl, by decide⟩

/-- Claim C1 (corrected): `load_config` returns the fully populated
hard-coded defaults only when the file is absent; when the file exists it
returns the parsed dictionary as-is (missing fields are not filled in),
raises `JSONDecodeError` on malformed content and `IOError` on an
unreadable file. -/
theorem load_config_amended (fs : CfgFS) :
    (fs.state = .absent →
      load_config fs = .ok default_style ∧ default_style.fullyPopulated) ∧
    (∀ d, fs.state = .json d → load_config fs = .ok d) ∧
    (fs.state = .malformed → load_config fs = .error PyError.jsonDecodeError) ∧
    (fs.state = .unreadable → load_config fs = .error PyError.ioError) := by
  rcases fs with ⟨wr, st⟩
  cases st <;>
    simp [load_config, default_style, StyleDict.fullyPopulated]

/-- Witness for C1's amended theorem: on an absent file the defaults come
back, fully populated. -/
theorem load_config_amended_witness :
    load_config ⟨true, FileState.absent⟩ = .ok default_style ∧
    StyleDict.fullyPopulated default_style :=
  (load_config_amended ⟨true, FileState.absent⟩).1 rfl

/-- Counterexample to claim C3 as stated: exporting to an unwritable path
raises nothing — `save_image` returns normally (`QImage.save`'s `False`
is discarded) and no PNG is written, instead of failing with `IOError`. -/
theorem save_image_claim_counterexample :
    save_image (Canvas.init 60 60 600) (some "art.png") ⟨false, none⟩
      = .ok (Canvas.init 60 60 600, ⟨false, none⟩) :=
  rfl

/-- Claim C3 (corrected): `save_image` swallows write failures — on any
unwritable path it completes without error, leaves the canvas untouched
and writes nothing; no `IOError` reaches the caller. -/
theorem save_image_swallows_write_failure
    (c : Canvas) (name : String) (fs : PngFS) (h : fs.writable = false) :
    save_image c (some name) fs = .ok (c, fs) := by
  simp [save_image, qimageSave, h, save_image_scaled]

/-- Witness for C3's amended theorem at a concrete input. -/
theorem save_image_swallows_write_failure_witness :
    save_image (Canvas.init 4 4 8) (some "out.png") ⟨false, none⟩
      = .ok (Canvas.init 4 4 8, ⟨false, none⟩) :=
  save_image_swallows_write_failure (Canvas.init 4 4 8) "out.png"
    ⟨false, none⟩ rfl

/-- Counterexample to claim C4 as stated: `reset_theme` does perform disk
I/O — starting from a config file holding a non-default style, the
persisted file afterwards holds the defaults, so the file changed. -/
theorem reset_theme_claim_counterexample :
    reset_theme ⟨⟨some "#000000", some "#000000", some "Arial"⟩⟩
        ⟨true, FileState.json ⟨some "#000000", some "#000000", some "Arial"⟩⟩
      = .ok (⟨default_style⟩, ⟨true, FileState.json default_style⟩) ∧
    FileState.json ⟨some "#000000", some "#000000", some "Arial"⟩
      ≠ FileState.json default_style :=
  ⟨rfl, by decide⟩

/-- Claim C4 (corrected): `reset_theme` installs a fresh copy of the
hard-coded defaults as the current style regardless of prior mutations,
but it also saves immediately: on a writable path the persisted theme
file is overwritten with the defaults (disk I/O does happen). -/
theorem reset_theme_amended (a : App) (fs : CfgFS) (h : fs.writable = true) :
    reset_theme a fs
      = .ok (⟨default_style⟩, { fs with state := .json default_style }) := by
  simp [reset_theme, save_config, h]

/-- Witness for C4's amended theorem at a concrete input. -/
theorem reset_theme_amended_witness :
    reset_theme ⟨⟨none, none, none⟩⟩ ⟨true, FileState.absent⟩
      = .ok (⟨default_style⟩, ⟨true, FileState.json default_style⟩) :=
  reset_theme_amended ⟨⟨none, none, none⟩⟩ ⟨true, FileState.absent⟩ rfl

/-- Claim C9 (confirmed): on a writable path, `save_config` followed by
`load_config` gives back exactly the style that was saved. -/
theorem save_then_load_roundtrip (s : StyleDict) (fs : CfgFS)
    (h : fs.writable = true) :
    Except.bind (save_config s fs) load_config = .ok s := by
  simp [save_config, load_config, h, Except.bind]

/-- Witness for C9: a concrete style survives the round-trip even when
the previous file content was malformed. -/
theorem save_then_load_roundtrip_witness :
    Except.bind
        (save_config ⟨some "#123456", some "#654321", some "Arial"⟩
          ⟨true, FileState.malformed⟩)
        load_config
      = .ok ⟨some "#123456", some "#654321", some "Arial"⟩ :=
  save_then_load_roundtrip ⟨some "#123456", some "#654321", some "Arial"⟩
    ⟨true, FileState.malformed⟩ rfl
